import Mathlib

/-!
Shallow embedding of `src/visa_interface.py` (Instruments-Control): a driver
for the Yokogawa 7651 programmable DC source over a VISA-style bus.

Modelling conventions:
* Numeric parameters are `Int` (the spec and source exercise integer values;
  Python `str(n)` on an integer agrees with `toString (n : Int)`).
* Every Python exception in this file is a `ValueError` with a message, or a
  `KeyError` from a dict lookup; both are modelled by `PyError`.
* Each translator operation is a pure function returning an `OpResult`:
  the outcome (`Except PyError Unit`), the ordered list of strings passed to
  `self.instr.write`, and the ordered list of strings printed to the console.
* The instrument transport is write-only and external; a write is recorded in
  the trace, never failing, matching the spec scope (transport internals are
  out of scope).
* The `while` loop of `dc_voltage_sweep` is embedded with explicit fuel:
  `none` means the fuel bound was reached with the loop still running, so
  non-termination of the source loop is `∀ fuel, result = none`.
-/

namespace VisaInterface

/-- Python exceptions raised in the source: `ValueError(msg)` from the bounds
checks, or a `KeyError` from a range-table lookup (its `str` is the key). -/
inductive PyError where
  | valueError (msg : String)
  | keyError (key : Int)
deriving DecidableEq, Repr

/-- `str(e)` as Python prints it in the `except` clauses. -/
def PyError.str : PyError → String
  | .valueError msg => msg
  | .keyError key => toString key

deriving instance DecidableEq for Except

/-- Result of one driver operation: outcome, transport writes issued (in
order), console prints issued (in order). -/
structure OpResult where
  res : Except PyError Unit
  writes : List String
  prints : List String
deriving DecidableEq, Repr

/-- `voltage_ranges = {10:"R2", 100:"R3", 1000:"R4", 10000:"R5", 30000:"R6"}`;
`none` is a `KeyError` on lookup. -/
def voltage_ranges : Int → Option String
  | 10 => some "R2"
  | 100 => some "R3"
  | 1000 => some "R4"
  | 10000 => some "R5"
  | 30000 => some "R6"
  | _ => none

/-- `current_ranges = {1:"R4", 10:"R5", 100:"R6"}`. -/
def current_ranges : Int → Option String
  | 1 => some "R4"
  | 10 => some "R5"
  | 100 => some "R6"
  | _ => none

/-- Message of the `ValueError` raised by `set_voltage_limit`. -/
def vmaxErrMsg : String := "Error: vmax should be in the 1 to 30 V range!"

/-- Message of the `ValueError` raised by `set_current_limit`. -/
def imaxErrMsg : String := "Error: imax should be in the 5 to 120 mA range!"

/-- Message of the `ValueError` raised by `dc_voltage_sweep`. -/
def sweepErrMsg : String := "Error: v_min should be lower than v_max"

/-- `set_voltage_limit(vmax)`: raises if `vmax > 30 or vmax < 0`, else writes
`"LV" + str(vmax)`. -/
def set_voltage_limit (vmax : Int) : OpResult :=
  if vmax > 30 ∨ vmax < 0 then
    ⟨Except.error (PyError.valueError vmaxErrMsg), [], []⟩
  else
    ⟨Except.ok (), ["LV" ++ toString vmax], []⟩

/-- `set_current_limit(imax)`: raises if `imax > 120 or imax < 5`, else writes
`"LA" + str(imax)`. -/
def set_current_limit (imax : Int) : OpResult :=
  if imax > 120 ∨ imax < 5 then
    ⟨Except.error (PyError.valueError imaxErrMsg), [], []⟩
  else
    ⟨Except.ok (), ["LA" ++ toString imax], []⟩

/-- `set_output_val(value, polarity)`: writes `"S" + polarity + str(value) + "E"`,
no validation of any kind. -/
def set_output_val (value : Int) (polarity : String) : OpResult :=
  ⟨Except.ok (), ["S" ++ polarity ++ toString value ++ "E"], []⟩

/-- `set_output_state(on)`: writes `"O" + str(int(on)) + "E"`. -/
def set_output_state (isOn : Bool) : OpResult :=
  ⟨Except.ok (), ["O" ++ (if isOn then "1" else "0") ++ "E"], []⟩

/-- `initialize_instrument()`: writes `"RC"`. -/
def initialize_instrument : OpResult :=
  ⟨Except.ok (), ["RC"], []⟩

/-- `set_voltage_function(v_range, i_limit=None)`: inside `try`, looks up
`v_range` (a missing key raises `KeyError`), writes `"F1" + code + "E"`, and —
if `i_limit` is truthy (not `None` and nonzero) — calls `set_current_limit`.
Any exception is caught by `except Exception as e: print(str(e))`, so the
outcome is always `ok`; writes made before the exception stand. -/
def set_voltage_function (v_range : Int) (i_limit : Option Int) : OpResult :=
  match voltage_ranges v_range with
  | none =>
      ⟨Except.ok (), [], [(PyError.keyError v_range).str]⟩
  | some code =>
      let w1 := "F1" ++ code ++ "E"
      match i_limit with
      | none => ⟨Except.ok (), [w1], []⟩
      | some i =>
          if i = 0 then ⟨Except.ok (), [w1], []⟩
          else
            match set_current_limit i with
            | ⟨Except.error e, ws, ps⟩ => ⟨Except.ok (), w1 :: ws, ps ++ [e.str]⟩
            | ⟨Except.ok _, ws, ps⟩ => ⟨Except.ok (), w1 :: ws, ps⟩

/-- `set_current_function(i_range, v_limit=None)`: symmetric to
`set_voltage_function`, writing `"F5" + code + "E"` and optionally chaining
`set_voltage_limit`; every exception is caught and printed. -/
def set_current_function (i_range : Int) (v_limit : Option Int) : OpResult :=
  match current_ranges i_range with
  | none =>
      ⟨Except.ok (), [], [(PyError.keyError i_range).str]⟩
  | some code =>
      let w1 := "F5" ++ code ++ "E"
      match v_limit with
      | none => ⟨Except.ok (), [w1], []⟩
      | some v =>
          if v = 0 then ⟨Except.ok (), [w1], []⟩
          else
            match set_voltage_limit v with
            | ⟨Except.error e, ws, ps⟩ => ⟨Except.ok (), w1 :: ws, ps ++ [e.str]⟩
            | ⟨Except.ok _, ws, ps⟩ => ⟨Except.ok (), w1 :: ws, ps⟩

/-- The `while v_min <= v_max` loop of `dc_voltage_sweep`, with explicit fuel
bounding the number of iterations. Each iteration performs the writes of
`set_output_val(v_min, polarity)` and advances `v_min += step` (the
`time.sleep(delay)` has no effect on the trace). `none` means the fuel ran
out with the loop condition still true. -/
def sweepLoop : Nat → Int → Int → Int → String → Option (List String)
  | 0, v_min, v_max, _, _ =>
      if v_min ≤ v_max then none else some []
  | n + 1, v_min, v_max, step, polarity =>
      if v_min ≤ v_max then
        match sweepLoop n (v_min + step) v_max step polarity with
        | none => none
        | some ws => some ((set_output_val v_min polarity).writes ++ ws)
      else some []

/-- `dc_voltage_sweep(v_min, v_max, step, delay, v_range, i_limit, polarity)`:
raises `ValueError` before any transmission if `v_min > v_max`; otherwise
calls `set_voltage_function(v_range, i_limit)` and runs the sweep loop.
`delay` only feeds `time.sleep` and is kept for faithfulness. Result `none`
means the loop was still running when the fuel bound was reached. -/
def dc_voltage_sweep (fuel : Nat) (v_min v_max step _delay v_range : Int)
    (i_limit : Option Int) (polarity : String) : Option OpResult :=
  if v_min > v_max then
    some ⟨Except.error (PyError.valueError sweepErrMsg), [], []⟩
  else
    let setup := set_voltage_function v_range i_limit
    match sweepLoop fuel v_min v_max step polarity with
    | none => none
    | some ws => some ⟨Except.ok (), setup.writes ++ ws, setup.prints⟩

/-- Session Handle state: `rmOpen` is whether `self.rm` has been closed, and
`trace` the write calls issued to the transport. The source's operations
never consult `rmOpen`. -/
structure InstrumentState where
  rmOpen : Bool
  trace : List String
deriving DecidableEq, Repr

/-- `close_instrument()`: `self.rm.close()` and two prints; the object keeps
no further record and no guard is installed. -/
def close_instrument (s : InstrumentState) : InstrumentState :=
  { s with rmOpen := false }

/-- `self.instr.write(cmd)` as the source issues it: unconditionally, with no
check of the session state preceding the call. -/
def instr_write (s : InstrumentState) (cmd : String) : InstrumentState :=
  { s with trace := s.trace ++ [cmd] }

/-- Run one translator operation against a session state: each of its write
calls reaches the transport (the source has no state guard), and the
operation's own outcome is returned unchanged. -/
def run_op (s : InstrumentState) (r : OpResult) :
    InstrumentState × Except PyError Unit :=
  (r.writes.foldl instr_write s, r.res)

/-! ### Helper lemmas -/

/-- `set_current_limit` inside the valid domain. -/
theorem set_current_limit_ok (imax : Int) (h5 : 5 ≤ imax) (h120 : imax ≤ 120) :
    set_current_limit imax = ⟨Except.ok (), ["LA" ++ toString imax], []⟩ := by
  unfold set_current_limit
  rw [if_neg (by omega)]

/-- `set_current_limit` outside the valid domain. -/
theorem set_current_limit_err (imax : Int) (h : imax < 5 ∨ 120 < imax) :
    set_current_limit imax =
      ⟨Except.error (PyError.valueError imaxErrMsg), [], []⟩ := by
  unfold set_current_limit
  rw [if_pos (by omega)]

/-- `set_voltage_limit` inside the domain its bounds check accepts. -/
theorem set_voltage_limit_ok (vmax : Int) (h0 : 0 ≤ vmax) (h30 : vmax ≤ 30) :
    set_voltage_limit vmax = ⟨Except.ok (), ["LV" ++ toString vmax], []⟩ := by
  unfold set_voltage_limit
  rw [if_neg (by omega)]

/-- `set_voltage_limit` outside the domain its bounds check accepts. -/
theorem set_voltage_limit_err (vmax : Int) (h : vmax < 0 ∨ 30 < vmax) :
    set_voltage_limit vmax =
      ⟨Except.error (PyError.valueError vmaxErrMsg), [], []⟩ := by
  unfold set_voltage_limit
  rw [if_pos (by omega)]

/-- Valid range and valid truthy limit: `set_voltage_function` writes the mode
command followed by the current-limit command. -/
theorem set_voltage_function_ok (v_range i : Int) (c : String)
    (hrange : voltage_ranges v_range = some c) (hi5 : 5 ≤ i) (hi120 : i ≤ 120) :
    set_voltage_function v_range (some i) =
      ⟨Except.ok (), ["F1" ++ c ++ "E", "LA" ++ toString i], []⟩ := by
  have hne : ¬ i = 0 := by omega
  simp [set_voltage_function, hrange, hne, set_current_limit_ok i hi5 hi120]

/-! ### C1: voltage-limit domain -/

/-- C1 counterexample: the claim says `set_voltage_limit(0)` raises
`OutOfRangeError` with zero writes; the code's check `vmax > 30 or vmax < 0`
accepts `0`, succeeds and writes `LV0`. -/
theorem set_voltage_limit_zero_accepted :
    set_voltage_limit 0 = ⟨Except.ok (), ["LV0"], []⟩ := by
  rfl

/-- C1 (amended): for every `v_max` with `0 <= v_max <= 30`,
`set_voltage_limit(v_max)` performs exactly one transport write, the string
`LV` followed by `v_max`; for every `v_max` with `v_max < 0` or `v_max > 30`
it raises the bounds-check `ValueError` and performs zero transport writes. -/
theorem set_voltage_limit_spec (vmax : Int) :
    (0 ≤ vmax → vmax ≤ 30 →
      set_voltage_limit vmax = ⟨Except.ok (), ["LV" ++ toString vmax], []⟩) ∧
    (vmax < 0 ∨ 30 < vmax →
      set_voltage_limit vmax =
        ⟨Except.error (PyError.valueError vmaxErrMsg), [], []⟩) :=
  ⟨fun h0 h30 => set_voltage_limit_ok vmax h0 h30,
   fun h => set_voltage_limit_err vmax h⟩

/-- C1 witness: both branches of the amended claim at concrete inputs. -/
theorem set_voltage_limit_spec_witness :
    set_voltage_limit 15 = ⟨Except.ok (), ["LV" ++ toString (15 : Int)], []⟩ ∧
    set_voltage_limit 31 =
      ⟨Except.error (PyError.valueError vmaxErrMsg), [], []⟩ :=
  ⟨(set_voltage_limit_spec 15).1 (by decide) (by decide),
   (set_voltage_limit_spec 31).2 (by decide)⟩

/-! ### C2: voltage-function lookup failure -/

/-- C2 counterexample: the claim says `set_voltage_function(5)` raises
`InvalidParameterError` to its caller; the code catches the `KeyError` in its
`except` clause, prints it and returns normally (zero writes). -/
theorem set_voltage_function_unknown_range_no_raise :
    set_voltage_function 5 none = ⟨Except.ok (), [], ["5"]⟩ := by
  rfl

/-- C2 (amended): for every `range_mV` not in the table,
`set_voltage_function` issues zero transport writes, and the lookup
`KeyError` is caught and printed rather than propagated: the call returns
normally. -/
theorem set_voltage_function_invalid_range (r : Int) (l : Option Int)
    (h : voltage_ranges r = none) :
    set_voltage_function r l = ⟨Except.ok (), [], [toString r]⟩ := by
  simp [set_voltage_function, h, PyError.str]

/-- C2 witness: the amended claim at `range_mV = 50`. -/
theorem set_voltage_function_invalid_range_witness :
    set_voltage_function 50 none = ⟨Except.ok (), [], [toString (50 : Int)]⟩ :=
  set_voltage_function_invalid_range 50 none rfl

/-! ### C3: voltage-function valid ranges -/

/-- C3: for every `range_mV` in {10, 100, 1000, 10000, 30000},
`set_voltage_function(range_mV)` with no current limit performs exactly one
transport write `F1<code>E` with the documented code (R2, R3, R4, R5, R6
respectively) and nothing else. -/
theorem set_voltage_function_valid_ranges :
    set_voltage_function 10 none = ⟨Except.ok (), ["F1R2E"], []⟩ ∧
    set_voltage_function 100 none = ⟨Except.ok (), ["F1R3E"], []⟩ ∧
    set_voltage_function 1000 none = ⟨Except.ok (), ["F1R4E"], []⟩ ∧
    set_voltage_function 10000 none = ⟨Except.ok (), ["F1R5E"], []⟩ ∧
    set_voltage_function 30000 none = ⟨Except.ok (), ["F1R6E"], []⟩ :=
  ⟨rfl, rfl, rfl, rfl, rfl⟩

/-! ### C4: current-limit domain -/

/-- C4: for every `i_max` with `5 <= i_max <= 120`, `set_current_limit(i_max)`
performs exactly one transport write `LA<i_max>`; outside that domain it
raises the bounds-check `ValueError` and performs zero transport writes. -/
theorem set_current_limit_spec (imax : Int) :
    (5 ≤ imax → imax ≤ 120 →
      set_current_limit imax = ⟨Except.ok (), ["LA" ++ toString imax], []⟩) ∧
    (imax < 5 ∨ 120 < imax →
      set_current_limit imax =
        ⟨Except.error (PyError.valueError imaxErrMsg), [], []⟩) :=
  ⟨fun h5 h120 => set_current_limit_ok imax h5 h120,
   fun h => set_current_limit_err imax h⟩

/-- C4 witness: both branches of the claim at concrete inputs. -/
theorem set_current_limit_spec_witness :
    set_current_limit 20 = ⟨Except.ok (), ["LA" ++ toString (20 : Int)], []⟩ ∧
    set_current_limit 4 =
      ⟨Except.error (PyError.valueError imaxErrMsg), [], []⟩ :=
  ⟨(set_current_limit_spec 20).1 (by decide) (by decide),
   (set_current_limit_spec 4).2 (by decide)⟩

/-! ### C6: output value setter never validates -/

/-- C6: for every `value` and `polarity`, `set_output_val` performs exactly
one transport write, the string `S<polarity><value>E`, and never raises: no
bounds check is applied to the value. -/
theorem set_output_val_spec (value : Int) (polarity : String) :
    set_output_val value polarity =
      ⟨Except.ok (), ["S" ++ polarity ++ toString value ++ "E"], []⟩ :=
  rfl

/-! ### C7: sweep precondition -/

/-- C7: for every call with `v_min > v_max`, `dc_voltage_sweep` raises the
precondition `ValueError` before any transmission: zero transport writes,
including the setup writes. -/
theorem dc_voltage_sweep_rejects_inverted (fuel : Nat)
    (v_min v_max step delay v_range : Int) (i_limit : Option Int)
    (polarity : String) (h : v_max < v_min) :
    dc_voltage_sweep fuel v_min v_max step delay v_range i_limit polarity =
      some ⟨Except.error (PyError.valueError sweepErrMsg), [], []⟩ := by
  unfold dc_voltage_sweep
  rw [if_pos (by omega)]

/-- C7 witness: the inverted sweep `v_min = 5 > v_max = 1`. -/
theorem dc_voltage_sweep_rejects_inverted_witness :
    dc_voltage_sweep 10 5 1 1 0 10000 (some 20) "+" =
      some ⟨Except.error (PyError.valueError sweepErrMsg), [], []⟩ :=
  dc_voltage_sweep_rejects_inverted 10 5 1 1 0 10000 (some 20) "+" (by decide)

/-! ### Sweep-loop lemmas -/

/-- With positive step and enough fuel, the sweep loop terminates and writes
the output command for `v + k * step`, `k = 0, 1, ...`, exactly while the
value stays below `v_max`. -/
theorem sweepLoop_closed_form (step : Int) (hstep : 0 < step) (v_max : Int)
    (polarity : String) :
    ∀ (n : Nat) (v : Int), v ≤ v_max → ((v_max - v) / step).toNat < n →
      sweepLoop n v v_max step polarity =
        some ((List.range (((v_max - v) / step).toNat + 1)).map
          (fun k : Nat => "S" ++ polarity ++ toString (v + (k : Int) * step) ++ "E")) := by
  intro n
  induction n with
  | zero => intro v _ hn; omega
  | succ n ih =>
    intro v hv hn
    have heq : step * ((v_max - v) / step) + (v_max - v) % step = v_max - v :=
      Int.ediv_add_emod (v_max - v) step
    have hr0 : 0 ≤ (v_max - v) % step :=
      Int.emod_nonneg (v_max - v) (by omega)
    have hrs : (v_max - v) % step < step :=
      Int.emod_lt_of_pos (v_max - v) hstep
    by_cases hnext : v + step ≤ v_max
    · have hq1 : 1 ≤ (v_max - v) / step :=
        (Int.le_ediv_iff_mul_le hstep).2 (by omega)
      have hshift : (v_max - (v + step)) / step = (v_max - v) / step - 1 := by
        have h := Int.add_mul_ediv_right (v_max - v) (-1) (show step ≠ 0 by omega)
        have harg : v_max - (v + step) = v_max - v + -1 * step := by ring
        rw [harg, h]
        ring
      have hrec := ih (v + step) hnext (by omega)
      have hN : ((v_max - v) / step).toNat + 1 = (((v_max - (v + step)) / step).toNat + 1) + 1 := by
        omega
      rw [sweepLoop, if_pos hv, hrec]
      refine congrArg some ?_
      rw [show (set_output_val v polarity).writes
            = ["S" ++ polarity ++ toString v ++ "E"] from rfl]
      rw [List.singleton_append, hN]
      conv_rhs => rw [List.range_succ_eq_map, List.map_cons, List.map_map]
      refine congrArg₂ List.cons ?_ ?_
      · have h0 : v + ((0 : Nat) : Int) * step = v := by push_cast; ring
        rw [h0]
      · refine List.map_congr_left ?_
        intro k _
        simp only [Function.comp_apply]
        have harg : v + ((Nat.succ k : Nat) : Int) * step
            = v + step + (k : Int) * step := by
          push_cast
          ring
        rw [harg]
    · have hq0 : (v_max - v) / step = 0 :=
        Int.ediv_eq_zero_of_lt (by omega) (by omega)
      have htail : sweepLoop n (v + step) v_max step polarity = some [] := by
        cases n with
        | zero => rw [sweepLoop, if_neg (by omega)]
        | succ m => rw [sweepLoop, if_neg (by omega)]
      rw [sweepLoop, if_pos hv, htail, hq0]
      simp only [set_output_val, List.append_nil, Int.toNat_zero, Nat.zero_add,
        List.range_succ, List.range_zero, List.nil_append,
        List.map_cons, List.map_nil]
      have h0 : v + ((0 : Nat) : Int) * step = v := by push_cast; ring
      rw [h0]

/-- With nonpositive step and the loop condition initially true, the loop
condition stays true forever: every fuel bound is exhausted. -/
theorem sweepLoop_diverges (step : Int) (hstep : step ≤ 0) (v_max : Int)
    (polarity : String) :
    ∀ (n : Nat) (v : Int), v ≤ v_max →
      sweepLoop n v v_max step polarity = none := by
  intro n
  induction n with
  | zero =>
    intro v hv
    rw [sweepLoop, if_pos hv]
  | succ n ih =>
    intro v hv
    rw [sweepLoop, if_pos hv, ih (v + step) (by omega)]

/-! ### C5: sweep write sequence -/

/-- C5: a successful sweep with `v_min <= v_max` (valid range, valid truthy
current limit, positive step) first performs the setup writes — mode command
`F1<code>E`, then current-limit command `LA<i>` — and then the output-value
writes for `v_min, v_min + step, v_min + 2*step, ...` in increasing order,
exactly while the value is `<= v_max`: every written value is `<= v_max`
and the first value not written exceeds `v_max`. -/
theorem dc_voltage_sweep_trace (v_min v_max step delay v_range i : Int)
    (polarity c : String)
    (hle : v_min ≤ v_max) (hstep : 0 < step)
    (hrange : voltage_ranges v_range = some c)
    (hi5 : 5 ≤ i) (hi120 : i ≤ 120) :
    (dc_voltage_sweep (((v_max - v_min) / step).toNat + 1) v_min v_max step
        delay v_range (some i) polarity =
      some ⟨Except.ok (),
        ("F1" ++ c ++ "E") :: ("LA" ++ toString i) ::
          (List.range (((v_max - v_min) / step).toNat + 1)).map
            (fun k : Nat =>
              "S" ++ polarity ++ toString (v_min + (k : Int) * step) ++ "E"),
        []⟩) ∧
    (∀ k : Nat, k ≤ ((v_max - v_min) / step).toNat →
      v_min + (k : Int) * step ≤ v_max) ∧
    (∀ j k : Nat, j < k →
      v_min + (j : Int) * step < v_min + (k : Int) * step) ∧
    v_max < v_min + ((((v_max - v_min) / step).toNat : Int) + 1) * step := by
  have heq : step * ((v_max - v_min) / step) + (v_max - v_min) % step
      = v_max - v_min := Int.ediv_add_emod (v_max - v_min) step
  have hr0 : 0 ≤ (v_max - v_min) % step :=
    Int.emod_nonneg (v_max - v_min) (by omega)
  have hrs : (v_max - v_min) % step < step :=
    Int.emod_lt_of_pos (v_max - v_min) hstep
  have hq0 : 0 ≤ (v_max - v_min) / step :=
    Int.ediv_nonneg (by omega) (by omega)
  have hcast : ((((v_max - v_min) / step).toNat : Int)) = (v_max - v_min) / step :=
    Int.toNat_of_nonneg hq0
  refine ⟨?_, ?_, ?_, ?_⟩
  · rw [dc_voltage_sweep, if_neg (by omega)]
    rw [sweepLoop_closed_form step hstep v_max polarity
      (((v_max - v_min) / step).toNat + 1) v_min hle (by omega)]
    rw [set_voltage_function_ok v_range i c hrange hi5 hi120]
    rfl
  · intro k hk
    have hk' : (k : Int) ≤ (v_max - v_min) / step := by omega
    have hmul : (k : Int) * step ≤ ((v_max - v_min) / step) * step :=
      mul_le_mul_of_nonneg_right hk' (by omega)
    nlinarith [hmul, heq, hr0]
  · intro j k hjk
    have hmul : (j : Int) * step < (k : Int) * step :=
      mul_lt_mul_of_pos_right (by exact_mod_cast hjk) hstep
    omega
  · rw [hcast]
    nlinarith [heq, hrs]

/-- C5 witness: the spec's example sweep `v_min = 0, v_max = 2, step = 1,
range 10000 mV, limit 20 mA`: setup writes `F1R5E`, `LA20`, then output
writes at 0, 1, 2 and nothing beyond. -/
theorem dc_voltage_sweep_trace_witness :
    dc_voltage_sweep 3 0 2 1 0 10000 (some 20) "+" =
      some ⟨Except.ok (), ["F1R5E", "LA20", "S+0E", "S+1E", "S+2E"], []⟩ := by
  have h := (dc_voltage_sweep_trace 0 2 1 0 10000 20 "+" "R5"
    (by decide) (by decide) rfl (by decide) (by decide)).1
  exact h

/-! ### C10: sweep-loop termination -/

/-- C10: for every `step > 0` and `v_min <= v_max`, the sweep loop
terminates once the fuel exceeds `floor((v_max - v_min) / step)`, issuing
exactly `floor((v_max - v_min) / step) + 1` output-value writes; for every
`step <= 0` with `v_min <= v_max`, the loop exhausts every fuel bound, i.e.
never terminates. -/
theorem dc_sweep_loop_termination (v_min v_max step : Int) (polarity : String)
    (hle : v_min ≤ v_max) :
    (0 < step → ∀ n : Nat, ((v_max - v_min) / step).toNat < n →
      ∃ ws : List String, sweepLoop n v_min v_max step polarity = some ws ∧
        ws.length = ((v_max - v_min) / step).toNat + 1) ∧
    (step ≤ 0 → ∀ n : Nat, sweepLoop n v_min v_max step polarity = none) := by
  constructor
  · intro hstep n hn
    refine ⟨_, sweepLoop_closed_form step hstep v_max polarity n v_min hle hn, ?_⟩
    rw [List.length_map, List.length_range]
  · intro hstep n
    exact sweepLoop_diverges step hstep v_max polarity n v_min hle

/-- C10 witness: with `v_min = 0, v_max = 2`: step 1 terminates in exactly
3 writes, step 0 exhausts an arbitrary fuel bound (here 5). -/
theorem dc_sweep_loop_termination_witness :
    (∃ ws : List String, sweepLoop 3 0 2 1 "+" = some ws ∧
      ws.length = (((2 : Int) - 0) / 1).toNat + 1) ∧
    sweepLoop 5 0 2 0 "+" = none :=
  ⟨(dc_sweep_loop_termination 0 2 1 "+" (by decide)).1 (by decide) 3 (by decide),
   (dc_sweep_loop_termination 0 2 0 "+" (by decide)).2 (by decide) 5⟩

/-! ### C8: writes after close -/

/-- Folding `instr_write` appends every command to the transport trace. -/
theorem foldl_instr_write_trace (ws : List String) (s : InstrumentState) :
    (ws.foldl instr_write s).trace = s.trace ++ ws := by
  induction ws generalizing s with
  | nil => simp
  | cons w ws ih => simp [instr_write, ih]

/-- C8 counterexample: the claim says that after `close()` any operation
raises `InvalidStateError` with no transport I/O; in the code,
`set_output_val(3, "+")` after `close_instrument()` still issues its write
call to the transport (the trace gains `S+3E`) and returns ok — the source
has no session-state guard and no `InvalidStateError` at all. -/
theorem write_after_close_transmits :
    (run_op (close_instrument ⟨true, []⟩) (set_output_val 3 "+")).1.trace
        = ["S+3E"] ∧
    (run_op (close_instrument ⟨true, []⟩) (set_output_val 3 "+")).2
        = Except.ok () :=
  ⟨rfl, rfl⟩

/-- C8 (amended): after `close_instrument()`, a translator operation behaves
exactly as before close: all of its write calls are issued to the transport
and its outcome is unchanged — the code installs no state check, raises no
state error, and leaves write-after-close to the external transport. -/
theorem run_op_after_close (s : InstrumentState) (r : OpResult) :
    (run_op (close_instrument s) r).1.trace = s.trace ++ r.writes ∧
    (run_op (close_instrument s) r).2 = r.res :=
  ⟨foldl_instr_write_trace r.writes (close_instrument s), rfl⟩

/-! ### C9: composite setters swallow errors, non-atomically -/

/-- C9: `set_voltage_function` and `set_current_function` never propagate an
exception — their outcome is always ok — and when the range is valid but the
truthy optional limit is out of range, the mode-select command (`F1<code>E`
resp. `F5<code>E`) has already been transmitted before the limit error is
caught and printed: the composite is not atomic on limit failure. -/
theorem set_function_swallows_errors (v_range i_range : Int)
    (i_limit v_limit : Option Int) :
    (set_voltage_function v_range i_limit).res = Except.ok () ∧
    (set_current_function i_range v_limit).res = Except.ok () ∧
    (∀ c i, voltage_ranges v_range = some c → i ≠ 0 → (i < 5 ∨ 120 < i) →
      set_voltage_function v_range (some i) =
        ⟨Except.ok (), ["F1" ++ c ++ "E"], [imaxErrMsg]⟩) ∧
    (∀ c v, current_ranges i_range = some c → v ≠ 0 → (v < 0 ∨ 30 < v) →
      set_current_function i_range (some v) =
        ⟨Except.ok (), ["F5" ++ c ++ "E"], [vmaxErrMsg]⟩) := by
  refine ⟨?_, ?_, ?_, ?_⟩
  · rcases h : voltage_ranges v_range with _ | c
    · simp [set_voltage_function, h]
    · rcases i_limit with _ | i
      · simp [set_voltage_function, h]
      · by_cases hi : i = 0
        · simp [set_voltage_function, h, hi]
        · rcases hcl : set_current_limit i with ⟨res, ws, ps⟩
          rcases res with e | u <;> simp [set_voltage_function, h, hi, hcl]
  · rcases h : current_ranges i_range with _ | c
    · simp [set_current_function, h]
    · rcases v_limit with _ | v
      · simp [set_current_function, h]
      · by_cases hv : v = 0
        · simp [set_current_function, h, hv]
        · rcases hvl : set_voltage_limit v with ⟨res, ws, ps⟩
          rcases res with e | u <;> simp [set_current_function, h, hv, hvl]
  · intro c i hc hi hdom
    have hcl := set_current_limit_err i hdom
    simp [set_voltage_function, hc, hi, hcl, PyError.str]
  · intro c v hc hv hdom
    have hvl := set_voltage_limit_err v hdom
    simp [set_current_function, hc, hv, hvl, PyError.str]

/-- C9 witness: valid voltage range 10000 with out-of-range limit 200; valid
current range 1 with out-of-range limit 40: in both, the mode command is
written before the limit error is swallowed. -/
theorem set_function_swallows_errors_witness :
    set_voltage_function 10000 (some 200) =
      ⟨Except.ok (), ["F1" ++ "R5" ++ "E"], [imaxErrMsg]⟩ ∧
    set_current_function 1 (some 40) =
      ⟨Except.ok (), ["F5" ++ "R4" ++ "E"], [vmaxErrMsg]⟩ :=
  ⟨(set_function_swallows_errors 10000 1 (some 200) (some 40)).2.2.1
      "R5" 200 rfl (by decide) (by decide),
   (set_function_swallows_errors 10000 1 (some 200) (some 40)).2.2.2
      "R4" 40 rfl (by decide) (by decide)⟩

end VisaInterface
